import Mathlib

/-!
Shallow embedding of `routePlotter.py` (Route-Plotter repository).

The Python module defines a `Coordinate` value class and a `RoutePlotter`
class holding a grid size (`_rows`, `_cols`), an ordered list of visited
coordinates (`_coords`), a cached display matrix (`_matrix`) and a
precomputed row-separator string (`_rowSep`).  Mutating methods are
embedded as functions from the plotter state to a (result, new state)
pair, where the returned state is the object state after the call —
including after an exceptional exit, since Python exceptions leave the
object as mutated so far.  Python exceptions are embedded as an explicit
error type.
-/

/-- Python exceptions raised (or potentially raised) by the module.
`valueError` is raised by `__init__` on non-positive dimensions and by
`int()` on an unparsable string; `outOfGrid` is the module's own
`OutOfGridError`; `indexError` comes from list indexing/`pop`;
`fileNotFound` from `open`. -/
inductive PyError
  | valueError
  | outOfGrid
  | indexError
  | fileNotFound
deriving DecidableEq, Repr

/-- `Coordinate`: a 2D integer point (`self.x`, `self.y`). -/
structure Coordinate where
  x : Int
  y : Int
deriving DecidableEq, Repr

/-- `Coordinate.__add__`: component-wise addition. -/
def Coordinate.add (a b : Coordinate) : Coordinate :=
  ⟨a.x + b.x, a.y + b.y⟩

/-- `os.linesep` (the module runs on a POSIX system). -/
def linesep : String := "\n"

/-- Python string repetition `s * n`. -/
def repeatStr (s : String) (n : Nat) : String :=
  String.join (List.replicate n s)

/-- Python format spec `>w`: right-justify in width `w`, space padding. -/
def rjust (s : String) (w : Nat) : String :=
  if s.length < w then String.mk (List.replicate (w - s.length) ' ') ++ s
  else s

/-- Python format spec `^w`: center in width `w`, the extra space (if the
padding is odd) going to the right. -/
def center (s : String) (w : Nat) : String :=
  if s.length < w then
    let total := w - s.length
    let left := total / 2
    String.mk (List.replicate left ' ') ++ s
      ++ String.mk (List.replicate (total - left) ' ')
  else s

/-- `self._rowSep = "---:" * (self._rows + 1) + "---" + linesep`
(computed once in `__init__`). -/
def rowSepStr (rows : Int) : String :=
  repeatStr "---:" (rows + 1).toNat ++ "---" ++ linesep

/-- The state of a `RoutePlotter` object: `_rows`, `_cols`, `_coords`,
`_matrix` and `_rowSep`. -/
structure RoutePlotter where
  rows : Int
  cols : Int
  coords : List Coordinate
  matrix : List (List String)
  rowSep : String
deriving DecidableEq, Repr

/-- The class-level dictionary `RoutePlotter._moves` mapping a direction
letter to its unit delta; a missing key (Python `KeyError`) is `none`. -/
def RoutePlotter.movesDict (direction : String) : Option Coordinate :=
  if direction = "N" then some ⟨0, 1⟩
  else if direction = "S" then some ⟨0, -1⟩
  else if direction = "E" then some ⟨1, 0⟩
  else if direction = "W" then some ⟨-1, 0⟩
  else none

/-- `RoutePlotter._checkPos`: `coord.x >= 1 and coord.x <= self._cols and
coord.y >= 1 and coord.y <= self._rows`. -/
def RoutePlotter.checkPos (s : RoutePlotter) (c : Coordinate) : Bool :=
  (c.x ≥ 1 && c.x ≤ s.cols) && (c.y ≥ 1 && c.y ≤ s.rows)

/-- `RoutePlotter.__init__(rows, cols, initialPos)`: raises `ValueError`
if `rows <= 0 or cols <= 0`; otherwise sets up the fields, validates
`initialPos` with `_checkPos`, appending it to `_coords` on success and
raising `OutOfGridError` otherwise. -/
def RoutePlotter.init (rows cols : Int) (initialPos : Coordinate) :
    Except PyError RoutePlotter :=
  if rows ≤ 0 ∨ cols ≤ 0 then .error .valueError
  else
    let s : RoutePlotter :=
      { rows := rows, cols := cols, coords := [], matrix := [],
        rowSep := rowSepStr rows }
    if s.checkPos initialPos then .ok { s with coords := s.coords ++ [initialPos] }
    else .error .outOfGrid

/-- The spec's `listCoordinates()`: a read-only snapshot of `_coords` in
insertion order (the source exposes the list via `printCoords`). -/
def RoutePlotter.listCoordinates (s : RoutePlotter) : List Coordinate :=
  s.coords

/-- Outcome of `RoutePlotter.move`: normal return after appending,
normal return after the caught `KeyError` (a message is printed and the
method returns early), or an uncaught exception. -/
inductive MoveResult
  | ok
  | invalidDirection
  | exn (e : PyError)
deriving DecidableEq, Repr

/-- `RoutePlotter.move(direction)`:
`prevPos = self._coords[-1]` (an `IndexError` on an empty list), then
`self._moves[direction]` inside `try/except KeyError` (on a bad key a
message is printed and the method returns, state unchanged), then the
candidate is checked with `_checkPos`: out of bounds raises
`OutOfGridError` with no mutation, otherwise the candidate is appended. -/
def RoutePlotter.move (s : RoutePlotter) (direction : String) :
    MoveResult × RoutePlotter :=
  match s.coords.getLast? with
  | none => (.exn .indexError, s)
  | some prevPos =>
    match RoutePlotter.movesDict direction with
    | none => (.invalidDirection, s)
    | some delta =>
      let newPos := prevPos.add delta
      if s.checkPos newPos then (.ok, { s with coords := s.coords ++ [newPos] })
      else (.exn .outOfGrid, s)

/-- Python `list.pop(i)`: a negative index counts from the end; an index
out of range (including any pop from an empty list) raises `IndexError`,
embedded as `none`.  Returns the list after removal. -/
def pyPop (l : List Coordinate) (i : Int) : Option (List Coordinate) :=
  let n : Int := l.length
  let j := if i < 0 then i + n else i
  if 0 ≤ j ∧ j < n then some (l.take j.toNat ++ l.drop (j.toNat + 1))
  else none

/-- `RoutePlotter.removeCoord(index=None)`: `self._coords.pop()` when no
index is given (Python `pop()` is `pop(-1)`), else `self._coords.pop(index)`.
The first component is the escaping exception, if any. -/
def RoutePlotter.removeCoord (s : RoutePlotter) (index : Option Int) :
    Option PyError × RoutePlotter :=
  match index with
  | none =>
    match pyPop s.coords (-1) with
    | some l => (none, { s with coords := l })
    | none => (some .indexError, s)
  | some i =>
    match pyPop s.coords i with
    | some l => (none, { s with coords := l })
    | none => (some .indexError, s)

/-- The fresh display matrix
`[[" " for c in range(self._cols)] for r in range(self._rows)]`. -/
def emptyMatrix (rows cols : Int) : List (List String) :=
  List.replicate rows.toNat (List.replicate cols.toNat " ")

/-- One iteration of the fill loop in `drawRoute`:
`self._matrix[coord.y - 1][coord.x - 1] = "x"`.  Faithful to Python for
coordinates satisfying the tracker's bounds invariant (both indices are
then in range); Python would raise `IndexError` or wrap a negative index
outside of it. -/
def markCell (m : List (List String)) (c : Coordinate) : List (List String) :=
  let r := (c.y - 1).toNat
  let col := (c.x - 1).toNat
  match m[r]? with
  | some row => m.set r (row.set col "x")
  | none => m

/-- The entry of the display matrix addressed by a coordinate (the cell
`markCell` writes): `none` when the indices fall outside the matrix. -/
def getCell (m : List (List String)) (c : Coordinate) : Option String :=
  (m[(c.y - 1).toNat]?).bind fun row => row[(c.x - 1).toNat]?

/-- `RoutePlotter.drawRoute`: rebuilds `self._matrix` from scratch, fills
it from `self._coords`, then assembles the header line, the separator
rows, one labelled line per grid row from row `rows` down to row 1, and
the column-label footer.  Returns the grid string together with the
object state after the call (only `_matrix` is mutated). -/
def RoutePlotter.drawRoute (s : RoutePlotter) : String × RoutePlotter :=
  let m := s.coords.foldl markCell (emptyMatrix s.rows s.cols)
  let top := repeatStr (rjust ":" 4) (s.cols + 1).toNat ++ center " " 3
      ++ linesep ++ s.rowSep
  let body := ((List.range s.rows.toNat).reverse).foldl
    (fun g i => g ++ rjust (toString (i + 1)) 3 ++ ": "
        ++ String.intercalate (center ":" 3) (m.getD i [])
        ++ rjust ":" 2 ++ linesep ++ s.rowSep)
    top
  let grid := body ++ rjust ":" 4
      ++ String.intercalate ":"
          ((List.range s.cols.toNat).map (fun i => center (toString (i + 1)) 3))
      ++ ":"
  (grid, { s with matrix := m })

/-- Python `str.strip()`: remove leading and trailing whitespace. -/
def pyStrip (s : String) : String :=
  String.mk
    (((s.data.dropWhile Char.isWhitespace).reverse.dropWhile
        Char.isWhitespace).reverse)

/-- The value of a digit string, most significant first. -/
def digitsVal (cs : List Char) : Nat :=
  cs.foldl (fun a c => a * 10 + (c.toNat - '0'.toNat)) 0

/-- Python `int(str)` on an already-stripped string: an optional sign
followed by at least one decimal digit; `none` where Python raises
`ValueError`. -/
def pyParseInt (s : String) : Option Int :=
  match s.data with
  | [] => none
  | '+' :: rest =>
    if rest ≠ [] ∧ rest.all Char.isDigit then some (digitsVal rest) else none
  | '-' :: rest =>
    if rest ≠ [] ∧ rest.all Char.isDigit then some (-(digitsVal rest : Int))
    else none
  | cs =>
    if cs.all Char.isDigit then some (digitsVal cs) else none

/-- Observable outcome of `RoutePlotter.fromFile`:
`escaped e` — the exception `e` propagates to the caller;
`noResult` — a message was printed and `None` returned;
`result r` — a `RoutePlotter` was returned. -/
inductive FileResult
  | escaped (e : PyError)
  | noResult
  | result (r : RoutePlotter)
deriving DecidableEq, Repr

/-- The move loop of `fromFile`: `for line in inFile: route.move(line.strip())`
inside `try/except OutOfGridError` (which prints and returns `None`).
An invalid direction is non-fatal (move printed and returned normally);
any other exception escapes. -/
def runMoves (s : RoutePlotter) : List String → FileResult
  | [] => .result s
  | line :: rest =>
    match s.move (pyStrip line) with
    | (.ok, s2) => runMoves s2 rest
    | (.invalidDirection, s2) => runMoves s2 rest
    | (.exn .outOfGrid, _) => .noResult
    | (.exn e, _) => .escaped e

/-- `RoutePlotter.fromFile(filePath, rows=12, cols=12)`.  The file is
`none` when missing (`FileNotFoundError` is caught: a message is printed
and `None` returned) and otherwise the list of its lines.  The first two
lines are stripped and parsed with `int()`; `int()` raises `ValueError`
on an unparsable string, but the handler is `except TypeError`, so the
`ValueError` escapes to the caller.  The constructor call
`cls(rows, cols, Coordinate(x, y))` is outside any handler, so its
exceptions escape too.  `readline()` past EOF returns `""`. -/
def RoutePlotter.fromFile (file : Option (List String)) (rows cols : Int) :
    FileResult :=
  match file with
  | none => .noResult
  | some lines =>
    match pyParseInt (pyStrip (lines.getD 0 "")), pyParseInt (pyStrip (lines.getD 1 "")) with
    | some x, some y =>
      match RoutePlotter.init rows cols ⟨x, y⟩ with
      | .error e => .escaped e
      | .ok route => runMoves route (lines.drop 2)
    | _, _ => .escaped .valueError

/-- The tracker bounds invariant: every stored coordinate lies inside the
1-indexed `rows × cols` grid. -/
def RoutePlotter.Inv (s : RoutePlotter) : Prop :=
  ∀ c ∈ s.coords, 1 ≤ c.x ∧ c.x ≤ s.cols ∧ 1 ≤ c.y ∧ c.y ≤ s.rows

instance (s : RoutePlotter) : Decidable s.Inv := by
  unfold RoutePlotter.Inv
  infer_instance

/-- A freshly constructed 1×1 tracker at (1,1), for concrete instances. -/
def grid11 : RoutePlotter :=
  { rows := 1, cols := 1, coords := [⟨1, 1⟩], matrix := [], rowSep := rowSepStr 1 }

/-- A freshly constructed 3×3 tracker at (1,1), for concrete instances. -/
def grid33 : RoutePlotter :=
  { rows := 3, cols := 3, coords := [⟨1, 1⟩], matrix := [], rowSep := rowSepStr 3 }

/-! ### Helper lemmas -/

theorem list_set_self {α : Type} {l : List α} {n : Nat} {a : α}
    (h : l[n]? = some a) : l.set n a = l := by
  induction l generalizing n with
  | nil => simp at h
  | cons b t ih =>
    cases n with
    | zero => simp_all
    | succ m =>
      simp only [List.getElem?_cons_succ] at h
      simp [List.set, ih h]

theorem checkPos_iff (s : RoutePlotter) (c : Coordinate) :
    s.checkPos c = true ↔
      1 ≤ c.x ∧ c.x ≤ s.cols ∧ 1 ≤ c.y ∧ c.y ≤ s.rows := by
  simp [RoutePlotter.checkPos, and_assoc]

theorem movesDict_none (d : String) (hN : d ≠ "N") (hS : d ≠ "S")
    (hE : d ≠ "E") (hW : d ≠ "W") : RoutePlotter.movesDict d = none := by
  unfold RoutePlotter.movesDict
  rw [if_neg hN, if_neg hS, if_neg hE, if_neg hW]

theorem pyPop_sub {l l' : List Coordinate} {i : Int}
    (h : pyPop l i = some l') : ∀ c ∈ l', c ∈ l := by
  simp only [pyPop] at h
  split at h <;> split at h <;>
    first
    | · injection h with h2
        subst h2
        intro c hc
        rcases List.mem_append.mp hc with htake | hdrop
        · exact List.mem_of_mem_take htake
        · exact List.mem_of_mem_drop hdrop
    | exact absurd h (by simp)

/-! ### Claim theorems -/

/-- Claim C3: for all `rows ≥ 1`, `cols ≥ 1` and a start coordinate with
`1 ≤ start.x ≤ cols` and `1 ≤ start.y ≤ rows`, construction succeeds and
`listCoordinates()` returns exactly `[start]`. -/
theorem init_ok_of_within_bounds (rows cols : Int) (start : Coordinate)
    (hr : 1 ≤ rows) (hc : 1 ≤ cols)
    (hx1 : 1 ≤ start.x) (hx2 : start.x ≤ cols)
    (hy1 : 1 ≤ start.y) (hy2 : start.y ≤ rows) :
    ∃ s, RoutePlotter.init rows cols start = .ok s
      ∧ s.listCoordinates = [start] := by
  refine ⟨{ rows := rows, cols := cols, coords := [start], matrix := [],
            rowSep := rowSepStr rows }, ?_, rfl⟩
  unfold RoutePlotter.init
  rw [if_neg (by omega), if_pos (by rw [checkPos_iff]; exact ⟨hx1, hx2, hy1, hy2⟩)]
  rfl

theorem init_ok_of_within_bounds_witness :
    (1:Int) ≤ 3 ∧ (1:Int) ≤ 3 ∧ (1:Int) ≤ 1 ∧ (1:Int) ≤ 3 ∧
    ∃ s, RoutePlotter.init 3 3 ⟨1, 1⟩ = .ok s ∧ s.listCoordinates = [⟨1, 1⟩] :=
  ⟨by decide, by decide, by decide, by decide,
    init_ok_of_within_bounds 3 3 ⟨1, 1⟩ (by decide) (by decide) (by decide)
      (by decide) (by decide) (by decide)⟩

/-- Claim C4: with `rows ≤ 0` or `cols ≤ 0`, construction fails with
`ValueError` (the spec's `InvalidDimensionsError`) for every start
coordinate, and never with `OutOfGridError`: the dimension check runs
before the position check. -/
theorem init_invalid_dims (rows cols : Int) (start : Coordinate)
    (h : rows ≤ 0 ∨ cols ≤ 0) :
    RoutePlotter.init rows cols start = .error .valueError
      ∧ RoutePlotter.init rows cols start ≠ .error .outOfGrid := by
  unfold RoutePlotter.init
  rw [if_pos h]
  exact ⟨rfl, by simp⟩

theorem init_invalid_dims_witness :
    ((0:Int) ≤ 0 ∨ (0:Int) ≤ 0) ∧
    (RoutePlotter.init 0 5 ⟨99, -3⟩ = .error .valueError
      ∧ RoutePlotter.init 0 5 ⟨99, -3⟩ ≠ .error .outOfGrid) :=
  ⟨by decide, init_invalid_dims 0 5 ⟨99, -3⟩ (by decide)⟩

/-- Claim C2: when the candidate position (last coordinate plus the direction's
delta) fails the bounds check, `move` raises `OutOfGridError` and the
state — in particular the coordinates list — is exactly as before. -/
theorem move_out_of_grid (s : RoutePlotter) (d : String)
    (last delta : Coordinate)
    (hlast : s.coords.getLast? = some last)
    (hd : RoutePlotter.movesDict d = some delta)
    (hcheck : s.checkPos (last.add delta) = false) :
    s.move d = (.exn .outOfGrid, s) := by
  unfold RoutePlotter.move
  rw [hlast, hd]
  simp [hcheck]

theorem move_out_of_grid_witness :
    grid11.coords.getLast? = some ⟨1, 1⟩ ∧
    RoutePlotter.movesDict "N" = some ⟨0, 1⟩ ∧
    grid11.checkPos (Coordinate.add ⟨1, 1⟩ ⟨0, 1⟩) = false ∧
    grid11.move "N" = (.exn .outOfGrid, grid11) :=
  ⟨by decide, by decide, by decide,
    move_out_of_grid grid11 "N" ⟨1, 1⟩ ⟨0, 1⟩ (by decide) (by decide) (by decide)⟩

/-- Claim C5: for a tracker whose coordinate list is non-empty (the spec's
never-empty invariant), an unrecognized direction token makes `move`
report the invalid direction and return with the state unchanged — no
`OutOfGridError`, no fatal error. -/
theorem move_invalid_direction (s : RoutePlotter) (d : String)
    (hne : s.coords ≠ [])
    (hN : d ≠ "N") (hS : d ≠ "S") (hE : d ≠ "E") (hW : d ≠ "W") :
    s.move d = (.invalidDirection, s) := by
  unfold RoutePlotter.move
  obtain ⟨last, hlast⟩ : ∃ c, s.coords.getLast? = some c := by
    cases hl : s.coords.getLast? with
    | none => exact absurd (List.getLast?_eq_none_iff.mp hl) hne
    | some c => exact ⟨c, rfl⟩
  rw [hlast, movesDict_none d hN hS hE hW]

theorem move_invalid_direction_witness :
    grid33.coords ≠ [] ∧
    ("Q" : String) ≠ "N" ∧ ("Q" : String) ≠ "S" ∧
    ("Q" : String) ≠ "E" ∧ ("Q" : String) ≠ "W" ∧
    grid33.move "Q" = (.invalidDirection, grid33) :=
  ⟨by decide, by decide, by decide, by decide, by decide,
    move_invalid_direction grid33 "Q" (by decide) (by decide) (by decide)
      (by decide) (by decide)⟩

/-- Claim C10: `move` reads `self._coords[-1]` first, so on a tracker whose
list was emptied (e.g. via `removeCoord`) it raises `IndexError` — not
`OutOfGridError` — for every direction token; and whenever the list is
non-empty that access cannot fail: `move` never raises `IndexError`. -/
theorem move_last_element_access :
    (∀ (s : RoutePlotter) (d : String), s.coords = [] →
      s.move d = (.exn .indexError, s))
    ∧ ∀ (s : RoutePlotter) (d : String), s.coords ≠ [] →
      (s.move d).1 ≠ .exn .indexError := by
  constructor
  · intro s d h
    unfold RoutePlotter.move
    rw [h]
    rfl
  · intro s d hne
    unfold RoutePlotter.move
    obtain ⟨last, hlast⟩ : ∃ c, s.coords.getLast? = some c := by
      cases hl : s.coords.getLast? with
      | none => exact absurd (List.getLast?_eq_none_iff.mp hl) hne
      | some c => exact ⟨c, rfl⟩
    rw [hlast]
    cases hd : RoutePlotter.movesDict d with
    | none => simp
    | some delta =>
      by_cases hc : s.checkPos (last.add delta) = true
      · simp [hc]
      · simp [Bool.eq_false_iff.mpr hc]

theorem move_last_element_access_witness :
    ({ grid33 with coords := [] } : RoutePlotter).coords = [] ∧
    RoutePlotter.move { grid33 with coords := [] } "N"
      = (.exn .indexError, { grid33 with coords := [] }) ∧
    grid33.coords ≠ [] ∧ (grid33.move "N").1 ≠ .exn .indexError :=
  ⟨rfl, move_last_element_access.1 { grid33 with coords := [] } "N" rfl,
    by decide, move_last_element_access.2 grid33 "N" (by decide)⟩

/-- Claim C6 counterexample: on a tracker holding exactly one coordinate,
`removeCoord()` does not fail — it succeeds (no exception) and leaves the
coordinates list empty, contradicting the claim that removal fails
whenever it would empty the list. -/
theorem removeCoord_singleton_no_failure :
    (grid33.removeCoord none).1 = none
      ∧ (grid33.removeCoord none).2.coords = [] := by
  constructor <;> rfl

/-- Claim C6 amended: `removeCoord` fails with `IndexError` (state unchanged)
exactly when the pop index is out of range for the current list — always
on an empty list, and for an explicit index `i` outside
`[-(length), length)`; but it does NOT forbid emptying the list: with the
default index on a one-element list it succeeds and leaves the list
empty. -/
theorem pyPop_none_iff (l : List Coordinate) (i : Int) :
    pyPop l i = none ↔ i < -(l.length : Int) ∨ (l.length : Int) ≤ i := by
  simp only [pyPop]
  split <;> split <;> simp <;> omega

theorem pyPop_singleton (c : Coordinate) : pyPop [c] (-1) = some [] := rfl

theorem removeCoord_out_of_range :
    (∀ (s : RoutePlotter) (i : Option Int), s.coords = [] →
        s.removeCoord i = (some .indexError, s))
    ∧ (∀ (s : RoutePlotter) (i : Int),
        (i < -(s.coords.length : Int) ∨ (s.coords.length : Int) ≤ i) →
        s.removeCoord (some i) = (some .indexError, s))
    ∧ ∀ (s : RoutePlotter) (c : Coordinate), s.coords = [c] →
        s.removeCoord none = (none, { s with coords := [] }) := by
  refine ⟨?_, ?_, ?_⟩
  · intro s i h
    cases i with
    | none =>
      simp only [RoutePlotter.removeCoord]
      rw [(pyPop_none_iff s.coords (-1)).mpr (by simp [h])]
    | some i =>
      simp only [RoutePlotter.removeCoord]
      rw [(pyPop_none_iff s.coords i).mpr (by simp [h]; omega)]
  · intro s i h
    simp only [RoutePlotter.removeCoord]
    rw [(pyPop_none_iff s.coords i).mpr h]
  · intro s c h
    simp only [RoutePlotter.removeCoord]
    rw [h, pyPop_singleton]

theorem removeCoord_out_of_range_witness :
    ({ grid33 with coords := [] } : RoutePlotter).coords = [] ∧
    RoutePlotter.removeCoord { grid33 with coords := [] } none
      = (some .indexError, { grid33 with coords := [] }) ∧
    ((5:Int) < -(grid33.coords.length : Int) ∨ (grid33.coords.length : Int) ≤ 5) ∧
    grid33.removeCoord (some 5) = (some .indexError, grid33) ∧
    grid33.coords = [⟨1, 1⟩] ∧
    grid33.removeCoord none = (none, { grid33 with coords := [] }) :=
  ⟨rfl, removeCoord_out_of_range.1 { grid33 with coords := [] } none rfl,
    by decide, removeCoord_out_of_range.2.1 grid33 5 (by decide),
    rfl, removeCoord_out_of_range.2.2 grid33 ⟨1, 1⟩ rfl⟩

/-- Claim C7: on a 3×3 grid starting at (1,1), the move sequence
`["N","N","E"]` succeeds step by step, `listCoordinates()` ends as
`[(1,1),(1,2),(1,3),(2,3)]` and the final coordinate is (2,3). -/
theorem scenario_3x3_NNE :
    RoutePlotter.init 3 3 ⟨1, 1⟩ = .ok grid33
    ∧ (grid33.move "N").1 = .ok
    ∧ ((grid33.move "N").2.move "N").1 = .ok
    ∧ (((grid33.move "N").2.move "N").2.move "E").1 = .ok
    ∧ (((grid33.move "N").2.move "N").2.move "E").2.listCoordinates
        = [⟨1, 1⟩, ⟨1, 2⟩, ⟨1, 3⟩, ⟨2, 3⟩]
    ∧ (((grid33.move "N").2.move "N").2.move "E").2.listCoordinates.getLast?
        = some ⟨2, 3⟩ :=
  ⟨rfl, by decide, by decide, by decide, by decide, by decide⟩

/-- Claim C9, the code at the failing input: when the first line of the file
does not parse as an integer, `int()` raises `ValueError`, but the
handler is `except TypeError`, so the `ValueError` escapes `fromFile` to
the caller instead of being reported as a failed construction. -/
theorem fromFile_unparsable_escapes :
    RoutePlotter.fromFile (some ["abc", "1", "N"]) 12 12
      = .escaped .valueError := by
  decide

/-- Claim C1: a successfully constructed tracker satisfies the bounds
invariant — every stored coordinate has `1 ≤ x ≤ cols` and
`1 ≤ y ≤ rows` — and the invariant is preserved by `move` (on every
outcome), by `removeCoord` (on every outcome) and by `drawRoute`. -/
theorem inv_established_and_preserved :
    (∀ (rows cols : Int) (start : Coordinate) (s : RoutePlotter),
        RoutePlotter.init rows cols start = .ok s → s.Inv)
    ∧ (∀ (s : RoutePlotter) (d : String), s.Inv → ((s.move d).2).Inv)
    ∧ (∀ (s : RoutePlotter) (i : Option Int), s.Inv → ((s.removeCoord i).2).Inv)
    ∧ ∀ s : RoutePlotter, s.Inv → ((s.drawRoute).2).Inv := by
  refine ⟨?_, ?_, ?_, ?_⟩
  · intro rows cols start s h
    simp only [RoutePlotter.init] at h
    split at h
    · exact absurd h (by simp)
    · split at h
      · rename_i hcheck
        injection h with h2
        subst h2
        intro c hc
        simp only [List.nil_append, List.mem_singleton] at hc
        subst hc
        simpa using (checkPos_iff _ _).mp hcheck
      · exact absurd h (by simp)
  · intro s d hInv
    unfold RoutePlotter.move
    cases hl : s.coords.getLast? with
    | none => exact hInv
    | some prev =>
      dsimp only
      cases hd : RoutePlotter.movesDict d with
      | none => exact hInv
      | some delta =>
        dsimp only
        split <;> rename_i hc
        · intro c hmem
          rcases List.mem_append.mp hmem with h1 | h2
          · exact hInv c h1
          · have hce : c = prev.add delta := by simpa using h2
            subst hce
            simpa using (checkPos_iff _ _).mp hc
        · exact hInv
  · intro s i hInv
    cases i with
    | none =>
      simp only [RoutePlotter.removeCoord]
      cases hp : pyPop s.coords (-1) with
      | none => exact hInv
      | some l =>
        intro c hc
        exact hInv c (pyPop_sub hp c hc)
    | some j =>
      simp only [RoutePlotter.removeCoord]
      cases hp : pyPop s.coords j with
      | none => exact hInv
      | some l =>
        intro c hc
        exact hInv c (pyPop_sub hp c hc)
  · intro s h
    exact h

theorem inv_established_and_preserved_witness :
    RoutePlotter.init 3 3 ⟨1, 1⟩ = .ok grid33 ∧
    grid33.Inv ∧
    ((grid33.move "N").2).Inv ∧
    ((grid33.removeCoord none).2).Inv ∧
    ((grid33.drawRoute).2).Inv :=
  ⟨rfl,
    inv_established_and_preserved.1 3 3 ⟨1, 1⟩ grid33 rfl,
    inv_established_and_preserved.2.1 grid33 "N" (by decide),
    inv_established_and_preserved.2.2.1 grid33 none (by decide),
    inv_established_and_preserved.2.2.2 grid33 (by decide)⟩

theorem markCell_eq_self {m : List (List String)} {c : Coordinate}
    (h : getCell m c = some "x" ∨ getCell m c = none) : markCell m c = m := by
  simp only [markCell]
  cases hr : m[(c.y - 1).toNat]? with
  | none => rfl
  | some row =>
    have hg : getCell m c = row[(c.x - 1).toNat]? := by
      simp only [getCell, hr, Option.some_bind]
    show m.set (c.y - 1).toNat (row.set (c.x - 1).toNat "x") = m
    rcases h with h | h
    · rw [hg] at h
      rw [list_set_self h, list_set_self hr]
    · rw [hg] at h
      rw [List.set_eq_of_length_le (List.getElem?_eq_none_iff.mp h),
        list_set_self hr]

theorem getCell_markCell_marked {m : List (List String)} {c : Coordinate}
    (d : Coordinate) (h : getCell m c = some "x") :
    getCell (markCell m d) c = some "x" := by
  simp only [markCell]
  cases hrd : m[(d.y - 1).toNat]? with
  | none => exact h
  | some rowd =>
    show getCell (m.set (d.y - 1).toNat (rowd.set (d.x - 1).toNat "x")) c
      = some "x"
    simp only [getCell] at h ⊢
    by_cases hrr : (c.y - 1).toNat = (d.y - 1).toNat
    · obtain ⟨hlt, -⟩ := List.getElem?_eq_some.mp hrd
      rw [hrr, List.getElem?_set_self hlt, Option.some_bind]
      rw [hrr, hrd, Option.some_bind] at h
      by_cases hcc : (c.x - 1).toNat = (d.x - 1).toNat
      · rw [hcc] at h ⊢
        obtain ⟨hlt2, -⟩ := List.getElem?_eq_some.mp h
        rw [List.getElem?_set_self hlt2]
      · rw [List.getElem?_set_ne (fun hh => hcc hh.symm)]
        exact h
    · rw [List.getElem?_set_ne (fun hh => hrr hh.symm)]
      exact h

theorem getCell_markCell_none {m : List (List String)} {c : Coordinate}
    (d : Coordinate) (h : getCell m c = none) :
    getCell (markCell m d) c = none := by
  simp only [markCell]
  cases hrd : m[(d.y - 1).toNat]? with
  | none => exact h
  | some rowd =>
    show getCell (m.set (d.y - 1).toNat (rowd.set (d.x - 1).toNat "x")) c = none
    simp only [getCell] at h ⊢
    by_cases hrr : (c.y - 1).toNat = (d.y - 1).toNat
    · obtain ⟨hlt, -⟩ := List.getElem?_eq_some.mp hrd
      rw [hrr, List.getElem?_set_self hlt, Option.some_bind]
      rw [hrr, hrd, Option.some_bind] at h
      rw [List.getElem?_eq_none_iff, List.length_set]
      exact List.getElem?_eq_none_iff.mp h
    · rw [List.getElem?_set_ne (fun hh => hrr hh.symm)]
      exact h

theorem markCell_sets (m : List (List String)) (c : Coordinate) :
    getCell (markCell m c) c = some "x" ∨ getCell (markCell m c) c = none := by
  simp only [markCell]
  cases hr : m[(c.y - 1).toNat]? with
  | none =>
    right
    simp only [getCell, hr, Option.none_bind]
  | some row =>
    show getCell (m.set (c.y - 1).toNat (row.set (c.x - 1).toNat "x")) c
        = some "x"
      ∨ getCell (m.set (c.y - 1).toNat (row.set (c.x - 1).toNat "x")) c = none
    obtain ⟨hlt, -⟩ := List.getElem?_eq_some.mp hr
    simp only [getCell, List.getElem?_set_self hlt, Option.some_bind]
    by_cases hcc : (c.x - 1).toNat < row.length
    · left
      rw [List.getElem?_set_self hcc]
    · right
      rw [List.getElem?_eq_none_iff, List.length_set]
      omega

theorem getCell_foldl_preserve {c : Coordinate} (t : List Coordinate)
    (m : List (List String))
    (h : getCell m c = some "x" ∨ getCell m c = none) :
    getCell (t.foldl markCell m) c = some "x"
      ∨ getCell (t.foldl markCell m) c = none := by
  induction t generalizing m with
  | nil => exact h
  | cons d t ih =>
    apply ih
    rcases h with h | h
    · exact Or.inl (getCell_markCell_marked d h)
    · exact Or.inr (getCell_markCell_none d h)

theorem getCell_foldl_mem {l : List Coordinate} {c : Coordinate}
    (hc : c ∈ l) (m : List (List String)) :
    getCell (l.foldl markCell m) c = some "x"
      ∨ getCell (l.foldl markCell m) c = none := by
  induction l generalizing m with
  | nil => cases hc
  | cons d t ih =>
    rcases List.mem_cons.mp hc with rfl | hmem
    · exact getCell_foldl_preserve t (markCell m c) (markCell_sets m c)
    · exact ih hmem (markCell m d)

theorem foldl_markCell_append_mem {l : List Coordinate} {c : Coordinate}
    (hc : c ∈ l) (m : List (List String)) :
    (l ++ [c]).foldl markCell m = l.foldl markCell m := by
  rw [List.foldl_append]
  simp only [List.foldl_cons, List.foldl_nil]
  exact markCell_eq_self (getCell_foldl_mem hc m)

/-- Claim C8: rendering is deterministic — calling `drawRoute` a second time on
the state returned by the first call yields the identical string (the
string depends only on the dimensions, the row separator and the
coordinate list, which `drawRoute` does not change) — and appending a
coordinate already present in the list leaves the rendered string
unchanged (a later visit overwrites the cell with the same marker). -/
theorem drawRoute_stable (s : RoutePlotter) (c : Coordinate)
    (hc : c ∈ s.coords) :
    ((s.drawRoute).2.drawRoute).1 = (s.drawRoute).1
    ∧ (({ s with coords := s.coords ++ [c] } : RoutePlotter).drawRoute).1
        = (s.drawRoute).1 := by
  constructor
  · rfl
  · simp only [RoutePlotter.drawRoute]
    rw [foldl_markCell_append_mem hc]

theorem drawRoute_stable_witness :
    (⟨1, 1⟩ : Coordinate) ∈ grid33.coords ∧
    (((grid33.drawRoute).2.drawRoute).1 = (grid33.drawRoute).1
      ∧ (({ grid33 with coords := grid33.coords ++ [⟨1, 1⟩] } : RoutePlotter).drawRoute).1
          = (grid33.drawRoute).1) :=
  ⟨by decide, drawRoute_stable grid33 ⟨1, 1⟩ (by decide)⟩
